import Mathlib

/-!
Shallow embedding of the real-time data synchronization layer of the
agency-flow client (`src/src/index.jsx`), centred on the `useData` hook
(lines 58-112) and the `useActions` hook (lines 115-159).

Modelling conventions:

* The six collection names are the enumeration `Col`; the list
  `collections` mirrors the `useMemo` array of the source (same order).
* A Firestore document is `Doc`: a store-assigned `docId` plus a field
  map.  JavaScript objects are modelled as association lists looked up
  with `List.lookup` (first match wins); a JS spread `{ a, ...b }`, in
  which later keys win, therefore puts the later keys *first* in the
  Lean list.
* A snapshot callback, an error callback, the effect cleanup, are the
  three events of `Event`; `step` runs one callback to completion, in
  line with the single-threaded event-loop model of the runtime: a
  `setState` functional updater is applied immediately, in program
  order, so `loading: loadedCollections < collections.length - 1` reads
  the counter before the `loadedCollections++` below it.
* The effect closure state is `SyncState`: the `mounted` flag, the
  `loadedCollections` counter, the captured `state.loading` value
  (`staleLoading` — the effect runs once, when the user id appears, so
  the `state.loading` read inside the callback is frozen at the value it
  had at that render, namely `true`), and the React state `AggState`.
* `startSync` models the effect body: when the user id is JS-falsy
  (absent or the empty string) the body returns at once, no callback is
  ever registered, and no event can fire — modelled by `mounted = false`,
  under which every event is the identity.
* The write helpers of `useActions` wrap every store call in
  `try`/`catch` and return a boolean, so they are modelled as total
  functions over the store call's outcome (`Except String Unit`);
  `serverTimestamp()` is an opaque sentinel value.
-/

namespace AgencyFlow

/-- The six collection names of the source's `collections` array. -/
inductive Col where
  | tickets
  | requests
  | notes
  | projects
  | profiles
  | quotas
deriving DecidableEq, Repr

/-- The string name of a collection, as used in the error message. -/
def Col.name : Col → String
  | .tickets => "tickets"
  | .requests => "requests"
  | .notes => "notes"
  | .projects => "projects"
  | .profiles => "profiles"
  | .quotas => "quotas"

/-- The `collections` array of `useData`, in source order. -/
def collections : List Col :=
  [.tickets, .requests, .notes, .projects, .profiles, .quotas]

/-- A decoded record: a JS object modelled as an association list
(first match wins on lookup). Field values are opaque strings. -/
abbrev Record := List (String × String)

/-- A Firestore document as delivered in a snapshot: the store-assigned
document id (`doc.id`) and the document's own field map (`doc.data()`). -/
structure Doc where
  docId : String
  fields : List (String × String)
deriving DecidableEq, Repr

/-- The record built by `({ id: doc.id, ...doc.data() })` at line 82:
the spread of the document's fields comes after the `id` key, so a field
literally named `id` wins over the store-assigned id.  With
lookup-first association lists the later JS keys come first. -/
def decodeDoc (d : Doc) : Record :=
  d.fields ++ [("id", d.docId)]

/-- The React state object of `useData`: one slice per collection plus
the `loading` and `error` scalars. -/
structure AggState where
  tickets : List Record
  requests : List Record
  notes : List Record
  projects : List Record
  profiles : List Record
  quotas : List Record
  loading : Bool
  error : Option String
deriving DecidableEq, Repr

/-- The initial `useState` value (line 59-62). -/
def initAgg : AggState :=
  { tickets := [], requests := [], notes := [], projects := [],
    profiles := [], quotas := [], loading := true, error := none }

/-- Read one collection's slice (`state[colName]`). -/
def getSlice (st : AggState) : Col → List Record
  | .tickets => st.tickets
  | .requests => st.requests
  | .notes => st.notes
  | .projects => st.projects
  | .profiles => st.profiles
  | .quotas => st.quotas

/-- Computed-key update `{ ...prevState, [colName]: data }`. -/
def setSlice (st : AggState) (c : Col) (data : List Record) : AggState :=
  match c with
  | .tickets => { st with tickets := data }
  | .requests => { st with requests := data }
  | .notes => { st with notes := data }
  | .projects => { st with projects := data }
  | .profiles => { st with profiles := data }
  | .quotas => { st with quotas := data }

/-- The effect-closure state of `useData`: the `mounted` flag and the
`loadedCollections` counter (lines 72-73), the captured `state.loading`
value read at line 89, and the current React state. -/
structure SyncState where
  mounted : Bool
  loadedCollections : Nat
  staleLoading : Bool
  state : AggState
deriving DecidableEq, Repr

/-- The events a running synchronizer can receive: a snapshot delivery
for one collection, a subscription failure for one collection, or the
effect cleanup (teardown). -/
inductive Event where
  | snapshot (c : Col) (docs : List Doc)
  | failure (c : Col)
  | stop
deriving DecidableEq, Repr

/-- The error message set at line 98: `Erreur de lecture ${colName}`. -/
def errMsg (c : Col) : String :=
  "Erreur de lecture " ++ c.name

/-- The snapshot callback (lines 79-94), run to completion.  The guard
`if (!mounted) return` comes first; then the decoded data replaces the
collection's slice while `loading` is recomputed from the *delivery
counter*; then, because the captured `state.loading` is frozen `true`,
the counter is incremented on every delivery and `loading` is forced
false when it reaches `collections.length`. -/
def onSnapshot (s : SyncState) (colName : Col) (docs : List Doc) : SyncState :=
  if s.mounted then
    let data := docs.map decodeDoc
    let st1 : AggState :=
      { setSlice s.state colName data with
        loading := decide (s.loadedCollections < collections.length - 1) }
    if s.mounted && s.staleLoading then
      let loaded := s.loadedCollections + 1
      if loaded = collections.length then
        { s with loadedCollections := loaded,
                 state := { st1 with loading := false } }
      else
        { s with loadedCollections := loaded, state := st1 }
    else
      { s with state := st1 }
  else s

/-- The error callback (lines 95-100): when still mounted, set the
aggregate `error` message naming the failing collection. -/
def onError (s : SyncState) (colName : Col) : SyncState :=
  if s.mounted then
    { s with state := { s.state with error := some (errMsg colName) } }
  else s

/-- The effect cleanup (lines 105-108): clear `mounted` and unsubscribe;
any in-flight delivery then hits the `mounted` guard and is discarded. -/
def stopSync (s : SyncState) : SyncState :=
  { s with mounted := false }

/-- Dispatch one event to the matching callback. -/
def step (s : SyncState) : Event → SyncState
  | .snapshot c docs => onSnapshot s c docs
  | .failure c => onError s c
  | .stop => stopSync s

/-- Run a whole sequence of events in arrival order (the runtime is
single threaded, so callbacks never overlap). -/
def run (s : SyncState) : List Event → SyncState
  | [] => s
  | e :: es => run (step s e) es

/-- JS falsiness of the `userId` argument: `!userId` is true for an
absent id and for the empty string. -/
def falsyId : Option String → Bool
  | none => true
  | some s => s == ""

/-- The effect body at lines 68-74: a falsy `userId` returns before any
subscription is opened, so no callback exists and no event can ever
mutate the state — captured by `mounted = false`.  Otherwise the closure
starts mounted with a zero counter, `staleLoading` frozen at the initial
`loading` value, and the initial React state. -/
def startSync (userId : Option String) : SyncState :=
  if falsyId userId then
    { mounted := false, loadedCollections := 0,
      staleLoading := initAgg.loading, state := initAgg }
  else
    { mounted := true, loadedCollections := 0,
      staleLoading := initAgg.loading, state := initAgg }

/-- The collections that delivered at least one snapshot in an event
sequence, in order of first mention (with repeats). -/
def snapCols : List Event → List Col
  | [] => []
  | .snapshot c _ :: es => c :: snapCols es
  | _ :: es => snapCols es

/-! The `useActions` hook (lines 115-159).  Each helper awaits one store
call inside `try`/`catch` and returns `true` on success, `false` on
failure; the outcome of the external store call is a parameter. -/

/-- Opaque stand-in for the `serverTimestamp()` sentinel. -/
def serverTimestampVal : String := "serverTimestamp()"

/-- The document written by `add` (lines 121-125):
`{ ...data, createdAt: serverTimestamp(), createdBy: userId }` — the
stamped keys come after the spread in JS, hence first here. -/
def addPayload (userId : String) (data : Record) : Record :=
  ("createdBy", userId) :: ("createdAt", serverTimestampVal) :: data

/-- The update written by `update` (lines 136-139):
`{ ...data, updatedAt: serverTimestamp() }`. -/
def updatePayload (data : Record) : Record :=
  ("updatedAt", serverTimestampVal) :: data

/-- Outcome of an awaited store call: success, or a thrown error. -/
abbrev StoreResult := Except String Unit

/-- `add` (lines 119-131): returns whether the call succeeded, paired
with the payload handed to `addDoc` when it did. -/
def add (userId : String) (data : Record) (res : StoreResult) :
    Bool × Option Record :=
  match res with
  | .ok _ => (true, some (addPayload userId data))
  | .error _ => (false, none)

/-- `update` (lines 133-145): returns whether the call succeeded, paired
with the payload handed to `updateDoc` when it did. -/
def update (_docId : String) (data : Record) (res : StoreResult) :
    Bool × Option Record :=
  match res with
  | .ok _ => (true, some (updatePayload data))
  | .error _ => (false, none)

/-- `remove` (lines 147-156): returns whether the delete succeeded. -/
def remove (_docId : String) (res : StoreResult) : Bool :=
  match res with
  | .ok _ => true
  | .error _ => false

/-! Helper lemmas about the state operations. -/

theorem getSlice_setSlice_self (st : AggState) (c : Col) (data : List Record) :
    getSlice (setSlice st c data) c = data := by
  cases c <;> rfl

theorem getSlice_setSlice_ne (st : AggState) (c c' : Col) (data : List Record)
    (h : c' ≠ c) : getSlice (setSlice st c data) c' = getSlice st c' := by
  cases c <;> cases c' <;> first | rfl | exact absurd rfl h

theorem setSlice_error (st : AggState) (c : Col) (data : List Record) :
    (setSlice st c data).error = st.error := by
  cases c <;> rfl

theorem getSlice_loading_update (st : AggState) (b : Bool) (c : Col) :
    getSlice { st with loading := b } c = getSlice st c := by
  cases c <;> rfl

theorem getSlice_error_update (st : AggState) (o : Option String) (c : Col) :
    getSlice { st with error := o } c = getSlice st c := by
  cases c <;> rfl

theorem onSnapshot_not_mounted (s : SyncState) (c : Col) (docs : List Doc)
    (h : s.mounted = false) : onSnapshot s c docs = s := by
  simp [onSnapshot, h]

/-- Characterization of a snapshot delivery on a mounted synchronizer:
the new state is the old one with the collection's slice replaced by the
decoded records and the `loading` flag set to some boolean; only the
closure counter changes besides. -/
theorem onSnapshot_mounted_eq (s : SyncState) (c : Col) (docs : List Doc)
    (h : s.mounted = true) :
    ∃ (n : Nat) (b : Bool),
      onSnapshot s c docs =
        { s with loadedCollections := n,
                 state := { setSlice s.state c (docs.map decodeDoc) with
                            loading := b } } := by
  cases hs : s.staleLoading with
  | false =>
    refine ⟨s.loadedCollections,
      decide (s.loadedCollections < collections.length - 1), ?_⟩
    simp [onSnapshot, h, hs]
  | true =>
    by_cases hn : s.loadedCollections + 1 = collections.length
    · exact ⟨s.loadedCollections + 1, false, by simp [onSnapshot, h, hs, hn]⟩
    · refine ⟨s.loadedCollections + 1,
        decide (s.loadedCollections < collections.length - 1), ?_⟩
      simp [onSnapshot, h, hs, hn]

theorem onSnapshot_error (s : SyncState) (c : Col) (docs : List Doc) :
    (onSnapshot s c docs).state.error = s.state.error := by
  cases hm : s.mounted with
  | false => rw [onSnapshot_not_mounted s c docs hm]
  | true =>
    obtain ⟨n, b, heq⟩ := onSnapshot_mounted_eq s c docs hm
    rw [heq]
    exact setSlice_error s.state c (docs.map decodeDoc)

theorem onSnapshot_slice_self (s : SyncState) (c : Col) (docs : List Doc)
    (h : s.mounted = true) :
    getSlice (onSnapshot s c docs).state c = docs.map decodeDoc := by
  obtain ⟨n, b, heq⟩ := onSnapshot_mounted_eq s c docs h
  rw [heq]
  show getSlice { setSlice s.state c (docs.map decodeDoc) with loading := b } c
      = docs.map decodeDoc
  rw [getSlice_loading_update, getSlice_setSlice_self]

theorem onSnapshot_slice_ne (s : SyncState) (c : Col) (docs : List Doc)
    (c' : Col) (h : c' ≠ c) :
    getSlice (onSnapshot s c docs).state c' = getSlice s.state c' := by
  cases hm : s.mounted with
  | false => rw [onSnapshot_not_mounted s c docs hm]
  | true =>
    obtain ⟨n, b, heq⟩ := onSnapshot_mounted_eq s c docs hm
    rw [heq]
    show getSlice { setSlice s.state c (docs.map decodeDoc) with loading := b } c'
        = getSlice s.state c'
    rw [getSlice_loading_update, getSlice_setSlice_ne s.state c c' _ h]

theorem onError_mounted_eq (s : SyncState) (c : Col) (h : s.mounted = true) :
    onError s c = { s with state := { s.state with error := some (errMsg c) } } := by
  simp [onError, h]

theorem step_not_mounted (s : SyncState) (e : Event) (h : s.mounted = false) :
    step s e = s := by
  cases e with
  | snapshot c docs => exact onSnapshot_not_mounted s c docs h
  | failure c => simp [step, onError, h]
  | stop =>
    cases s with
    | mk m lc sl st =>
      have hm : m = false := h
      subst hm
      rfl

theorem run_not_mounted (s : SyncState) (evs : List Event)
    (h : s.mounted = false) : run s evs = s := by
  induction evs with
  | nil => rfl
  | cons e es ih => rw [run, step_not_mounted s e h]; exact ih

theorem step_error_sticky (t : SyncState) (e : Event)
    (h : t.state.error ≠ none) : (step t e).state.error ≠ none := by
  cases e with
  | snapshot c docs =>
    show (onSnapshot t c docs).state.error ≠ none
    rw [onSnapshot_error]
    exact h
  | failure c =>
    show (onError t c).state.error ≠ none
    cases hm : t.mounted with
    | true => rw [onError_mounted_eq t c hm]; simp
    | false => simpa [onError, hm] using h
  | stop => exact h

theorem lookup_append_single (l : List (String × String)) (k v : String) :
    (l ++ [(k, v)]).lookup k = some ((l.lookup k).getD v) := by
  induction l with
  | nil => simp [List.lookup]
  | cons p l ih =>
    obtain ⟨a, b⟩ := p
    by_cases hk : (k == a) = true
    · simp [List.lookup, hk]
    · simp only [List.cons_append, List.lookup, hk]
      simpa [hk] using ih

/-! The claim theorems. -/

/-- C1 (code bug evidence): the code clears `loading` when the closure's
*delivery counter* reaches six, not when the *set* of collections seen is
complete.  Six snapshot deliveries among which `quotas` never appears
(`tickets` delivers twice) already drive `loading` to false, although
only five distinct collections have delivered. -/
theorem loading_cleared_by_delivery_count :
    Col.quotas ∉ snapCols
        [.snapshot .tickets [], .snapshot .tickets [], .snapshot .requests [],
         .snapshot .notes [], .snapshot .projects [], .snapshot .profiles []]
    ∧ (run (startSync (some "u1"))
        [.snapshot .tickets [], .snapshot .tickets [], .snapshot .requests [],
         .snapshot .notes [], .snapshot .projects [],
         .snapshot .profiles []]).state.loading = false :=
  ⟨by decide, rfl⟩

/-- C2 (code bug evidence): `loading` does not stay true forever when a
collection never emits — after six deliveries in which `notes` emits
twice and `quotas` never emits, the code sets `loading` to false. -/
theorem loading_cleared_while_collection_missing :
    Col.quotas ∉ snapCols
        [.snapshot .requests [], .snapshot .notes [], .snapshot .notes [],
         .snapshot .projects [], .snapshot .profiles [], .snapshot .tickets []]
    ∧ (run (startSync (some "u2"))
        [.snapshot .requests [], .snapshot .notes [], .snapshot .notes [],
         .snapshot .projects [], .snapshot .profiles [],
         .snapshot .tickets []]).state.loading = false :=
  ⟨by decide, rfl⟩

/-- C3 (code bug evidence): a repeat delivery for a collection that has
already delivered does replace its slice in full, but it is *not*
neutral for `loading`: with five distinct collections delivered
(`loading` still true), a second `tickets` snapshot pushes the delivery
counter to six and flips `loading` to false. -/
theorem repeat_delivery_changes_loading :
    (run (startSync (some "u1"))
      [.snapshot .tickets [⟨"t1", [("title", "a")]⟩], .snapshot .requests [],
       .snapshot .notes [], .snapshot .projects [],
       .snapshot .profiles []]).state.tickets
        = [decodeDoc ⟨"t1", [("title", "a")]⟩]
    ∧ (run (startSync (some "u1"))
        [.snapshot .tickets [⟨"t1", [("title", "a")]⟩], .snapshot .requests [],
         .snapshot .notes [], .snapshot .projects [],
         .snapshot .profiles []]).state.loading = true
    ∧ (run (startSync (some "u1"))
        [.snapshot .tickets [⟨"t1", [("title", "a")]⟩], .snapshot .requests [],
         .snapshot .notes [], .snapshot .projects [], .snapshot .profiles [],
         .snapshot .tickets [⟨"t2", [("title", "b")]⟩]]).state.tickets
        = [decodeDoc ⟨"t2", [("title", "b")]⟩]
    ∧ (run (startSync (some "u1"))
        [.snapshot .tickets [⟨"t1", [("title", "a")]⟩], .snapshot .requests [],
         .snapshot .notes [], .snapshot .projects [], .snapshot .profiles [],
         .snapshot .tickets [⟨"t2", [("title", "b")]⟩]]).state.loading
        = false :=
  ⟨rfl, rfl, rfl, rfl⟩

/-- What a subscription failure does on a live synchronizer: the error
message names the failing collection, `loading` and every slice are
untouched, the closure stays mounted so a later snapshot for any
collection still replaces its slice, and a non-null error survives every
further event. -/
def FailureBehaviour (s : SyncState) (c : Col) : Prop :=
  (step s (.failure c)).state.error = some (errMsg c)
  ∧ (step s (.failure c)).state.loading = s.state.loading
  ∧ (∀ c' : Col, getSlice (step s (.failure c)).state c' = getSlice s.state c')
  ∧ (step s (.failure c)).mounted = true
  ∧ (∀ (c' : Col) (docs : List Doc),
      getSlice (step (step s (.failure c)) (.snapshot c' docs)).state c'
        = docs.map decodeDoc)
  ∧ (∀ (t : SyncState) (e : Event),
      t.state.error ≠ none → (step t e).state.error ≠ none)

/-- C4: on a mounted synchronizer, a subscription failure for collection
`c` sets the aggregate error to the message naming `c`, does not clear
`loading`, leaves all slices unchanged, closes nothing (subsequent
snapshot deliveries still replace their slices normally), and the error
field, once non-null, stays non-null under every later event. -/
theorem failure_sets_sticky_error (s : SyncState) (c : Col)
    (h : s.mounted = true) : FailureBehaviour s c := by
  have he := onError_mounted_eq s c h
  refine ⟨?_, ?_, ?_, ?_, ?_, step_error_sticky⟩
  · show (onError s c).state.error = some (errMsg c)
    rw [he]
  · show (onError s c).state.loading = s.state.loading
    rw [he]
  · intro c'
    show getSlice (onError s c).state c' = getSlice s.state c'
    rw [he]
    exact getSlice_error_update s.state (some (errMsg c)) c'
  · show (onError s c).mounted = true
    rw [he]
    exact h
  · intro c' docs
    show getSlice (onSnapshot (onError s c) c' docs).state c' = docs.map decodeDoc
    have hm : (onError s c).mounted = true := by rw [he]; exact h
    exact onSnapshot_slice_self (onError s c) c' docs hm

/-- Witness for C4 at a concrete input: a freshly started synchronizer
for identity "u1" with a failing `tickets` subscription. -/
theorem failure_sets_sticky_error_witness :
    (startSync (some "u1")).mounted = true
    ∧ FailureBehaviour (startSync (some "u1")) Col.tickets :=
  ⟨rfl, failure_sets_sticky_error (startSync (some "u1")) Col.tickets rfl⟩

/-- C5: after teardown, every sequence of late deliveries — snapshots or
failures, for any collection, in any order — leaves the synchronizer
exactly as it was at the moment of `stop`, and `stop` itself does not
change the aggregate state. -/
theorem stop_freezes_state (s : SyncState) (evs : List Event) :
    run (stopSync s) evs = stopSync s ∧ (stopSync s).state = s.state :=
  ⟨run_not_mounted (stopSync s) evs rfl, rfl⟩

/-- C6: for a JS-falsy identity (absent or empty string) the effect is a
no-op: no subscription is opened (the closure is never mounted), the
aggregate state is the initial one (all six slices empty, `loading`
true, `error` null), and no sequence of events ever changes anything. -/
theorem falsy_identity_start_noop (userId : Option String)
    (evs : List Event) (h : falsyId userId = true) :
    (startSync userId).mounted = false
    ∧ (startSync userId).state = initAgg
    ∧ run (startSync userId) evs = startSync userId := by
  have h1 : startSync userId =
      { mounted := false, loadedCollections := 0,
        staleLoading := initAgg.loading, state := initAgg } := by
    simp [startSync, h]
  refine ⟨by rw [h1], by rw [h1], run_not_mounted _ _ (by rw [h1])⟩

/-- Witness for C6 at the concrete input: the empty-string identity with
one late `quotas` snapshot. -/
theorem falsy_identity_start_noop_witness :
    falsyId (some "") = true
    ∧ ((startSync (some "")).mounted = false
       ∧ (startSync (some "")).state = initAgg
       ∧ run (startSync (some "")) [.snapshot .quotas [⟨"q1", []⟩]]
           = startSync (some "")) :=
  ⟨rfl, falsy_identity_start_noop (some "") [.snapshot .quotas [⟨"q1", []⟩]] rfl⟩

/-- C7: a snapshot delivery for collection `c` mutates at most `c`'s
slice and the `loading` flag: every other collection's slice and the
`error` field are unchanged, for every synchronizer state and every
snapshot. -/
theorem snapshot_frame (s : SyncState) (c : Col) (docs : List Doc)
    (c' : Col) (h : c' ≠ c) :
    getSlice (step s (.snapshot c docs)).state c' = getSlice s.state c'
    ∧ (step s (.snapshot c docs)).state.error = s.state.error :=
  ⟨onSnapshot_slice_ne s c docs c' h, onSnapshot_error s c docs⟩

/-- Witness for C7 at a concrete input: a `tickets` snapshot on a fresh
synchronizer leaves the `quotas` slice and the error field alone. -/
theorem snapshot_frame_witness :
    Col.quotas ≠ Col.tickets
    ∧ (getSlice (step (startSync (some "u1"))
          (.snapshot .tickets [⟨"t1", [("title", "a")]⟩])).state Col.quotas
        = getSlice (startSync (some "u1")).state Col.quotas
       ∧ (step (startSync (some "u1"))
            (.snapshot .tickets [⟨"t1", [("title", "a")]⟩])).state.error
          = (startSync (some "u1")).state.error) :=
  ⟨by decide,
   snapshot_frame (startSync (some "u1")) Col.tickets
     [⟨"t1", [("title", "a")]⟩] Col.quotas (by decide)⟩

/-- C8: teardown is idempotent — stopping an already-stopped
synchronizer is the identity, and stopping never mutates the aggregate
state (so stopping twice yields the very state of stopping once). -/
theorem stop_idempotent (s : SyncState) :
    stopSync (stopSync s) = stopSync s ∧ (stopSync s).state = s.state :=
  ⟨rfl, rfl⟩

/-- C9: the decoded record is the store-assigned document id overridden
by the document's own fields: when the field map has an `id` key its
value wins, otherwise the record's `id` is the document id — stated in
one equation via `Option.getD`. -/
theorem decoded_id_precedence (d : Doc) :
    (decodeDoc d).lookup "id" = some ((d.fields.lookup "id").getD d.docId) :=
  lookup_append_single d.fields "id" d.docId

/-- C10: the write helpers are total over the store call's outcome —
`add`, `update` and `remove` answer `true` exactly on success and
`false` exactly on a thrown store error (nothing propagates), and the
document `add` hands to the store carries `createdBy = userId`, even
when the input data had its own `createdBy` field. -/
theorem actions_return_status_and_stamp (u : String) (d : Record)
    (i msg : String) :
    add u d (Except.ok ()) = (true, some (addPayload u d))
    ∧ add u d (Except.error msg) = (false, none)
    ∧ (addPayload u d).lookup "createdBy" = some u
    ∧ update i d (Except.ok ()) = (true, some (updatePayload d))
    ∧ update i d (Except.error msg) = (false, none)
    ∧ remove i (Except.ok ()) = true
    ∧ remove i (Except.error msg) = false := by
  refine ⟨rfl, rfl, ?_, rfl, rfl, rfl, rfl⟩
  simp [addPayload, List.lookup]

end AgencyFlow
